import Mathlib

/-!
Shallow embedding of `Flite-1.0.0/LinkedList/UnrolledLinkedList.py`: the
`UnrolledNode` and `UnrolledLinkedList` classes, their constructors, and the
public operations `push_back`, `push_front`, `contains(val)` and `is_empty`,
together with the specification-level observation `toSequence`.

Python exceptions are modelled explicitly: constructors return
`Except PyError _`; mutating operations return the (possibly unchanged) state
together with the exception raised, if any.  An exception raised inside
`__init__` means no instance escapes, so a failed construction yields no state
at all.  Element values are drawn from an arbitrary type `α` (with decidable
equality where the code compares values with `==`); `np.nan` filler slots are
modelled as `none`.  The exact value 0.5 of the Python float literal `0.5` is
written `mkRat 1 2`.

The class bodies in the source contain slips that the embedding reproduces
faithfully, because the claims are about them: the inverted capacity type
check in `UnrolledNode.__init__`, the `vals=` keyword used at every
`UnrolledNode(...)` call site although the signature declares
`(node_capacity, iterable)`, the keyword arguments passed to
`math.remainder`, the read of the never-assigned attribute `__index` in the
`next` property, the absent `_size` updates in the push paths, and the
off-by-one shift loop in `push_front`.
-/

namespace Flite

/-- Python exception classes raised by the relevant code paths. -/
inductive PyError where
  | typeError
  | valueError
  | indexError
  | attributeError
  | zeroDivisionError
  deriving DecidableEq

/-- State of an `UnrolledNode`: the `__node_capacity` attribute and the numpy
value array `__array` created by `np.full`; a `none` entry models the `np.nan`
filler. -/
structure UnrolledNode (α : Type) where
  node_capacity : Int
  array : List (Option α)
  deriving DecidableEq

/-- Left-packed fill of a fresh node array: `np.full(shape=(node_capacity,),
fill_value=np.nan)` followed by the `for index, item in enumerate(iterable)`
loop that writes the iterable into the front slots. -/
def fillArray {α : Type} (node_capacity : Int) (it : List α) : List (Option α) :=
  it.map some ++ List.replicate (node_capacity.toNat - it.length) none

/-- Body of `UnrolledNode.__init__(node_capacity, iterable=None)`.  `capIsInt`
models the dynamic type test on `node_capacity`.  The source guard is
`if not type(node_capacity) != int: raise TypeError(...)`, which is inverted:
it raises exactly when the capacity IS an `int`.  When `iterable` is left as
its default `None`, the later `len(iterable)` raises TypeError. -/
def UnrolledNode.init {α : Type} (capIsInt : Bool) (node_capacity : Int)
    (iterable : Option (List α)) : Except PyError (UnrolledNode α) :=
  if capIsInt then .error .typeError
  else if node_capacity ≤ 0 then .error .valueError
  else
    match iterable with
    | none => .error .typeError
    | some it =>
      if (it.length : Int) > node_capacity then .error .valueError
      else .ok ⟨node_capacity, fillArray node_capacity it⟩

/-- Every construction of an `UnrolledNode` inside `UnrolledLinkedList` is
written `UnrolledNode(vals=..., node_capacity=...)`, but the signature of
`UnrolledNode.__init__` declares the parameters `(node_capacity, iterable)`:
binding the unexpected keyword argument `vals` raises TypeError before the
body of `__init__` ever runs, whatever the argument values are. -/
def UnrolledNode.callWithValsKw {α : Type} (vals : List α) (node_capacity : Int) :
    Except PyError (UnrolledNode α) :=
  .error .typeError

/-- `UnrolledNode.__len__`: counts the leading entries of `__array` that are
not `np.nan`, via `itertools.takewhile(lambda x: x is not np.nan, ...)`. -/
def UnrolledNode.len {α : Type} (n : UnrolledNode α) : Nat :=
  (n.array.takeWhile fun o => o.isSome).length

/-- `UnrolledNode.contains(val)`: `any([item == val for item in self.__array])`.
The scan covers the whole array, and an `np.nan` filler entry never compares
equal to a value. -/
def UnrolledNode.containsVal {α : Type} [DecidableEq α]
    (n : UnrolledNode α) (val : α) : Bool :=
  n.array.any fun item => item = some val

/-- Getter of the `next` property of `UnrolledNode`.  Its first statement reads
`self.__index`, an attribute that no method of the class ever assigns (the
constructor sets only `__node_capacity` and `__array`), so every access raises
AttributeError before any link could be followed. -/
def UnrolledNode.nextProp {α : Type} (n : UnrolledNode α) :
    Except PyError (Option (UnrolledNode α)) :=
  .error .attributeError

/-- State of an `UnrolledLinkedList`.  `chain` keeps the nodes from head to
tail as a list, `[]` modelling `__head = __tail = None`; `size` is `_size` and
`node_count` is `__node_count`.  (The source links nodes by assigning the
attribute `_UnrolledNode_next`, which the `next` property never reads — the
list representation only records which nodes exist and in which order; no
operation below ever links two nodes anyway, since every node construction
raises first.) -/
structure UnrolledLinkedList (α : Type) where
  capacity : Option Int
  node_capacity : Int
  loadfactor : ℚ
  size : Nat
  node_count : Nat
  chain : List (UnrolledNode α)
  deriving DecidableEq

/-- The `head` property: first node of the chain, or `none`. -/
def UnrolledLinkedList.head {α : Type} (s : UnrolledLinkedList α) :
    Option (UnrolledNode α) :=
  s.chain.head?

/-- The `tail` property: last node of the chain, or `none`. -/
def UnrolledLinkedList.tail {α : Type} (s : UnrolledLinkedList α) :
    Option (UnrolledNode α) :=
  s.chain.getLast?

/-- `is_empty`: `self.__head is None`. -/
def UnrolledLinkedList.is_empty {α : Type} (s : UnrolledLinkedList α) : Bool :=
  s.head.isNone

/-- Python `int(...)` applied to an exact rational value: truncation toward
zero, which on `num/den` (with positive denominator) is integer t-division,
`Int.tdiv` (written explicitly, since the ambient `/` on `Int` is Euclidean
division and would round `-1/2` to `-1` where Python yields 0). -/
def pyTruncInt (q : ℚ) : Int :=
  Int.tdiv q.num (q.den : Int)

/-- `UnrolledLinkedList.__init__(vals, capacity, node_capacity, loadfactor)`.
`lfIsFloat` models the dynamic type test `type(loadfactor) != float`; the
`isinstance(vals, Collection)` and `type(capacity) != int` tests cannot fire on
the typed inputs used here.  The range check is
`loadfactor <= 0 or loadfactor > 0.5`.  Note that `node_capacity` is not
validated at all.

With a non-empty `vals` the bulk path computes
`mean_vals_per_node = int(self.__loadfactor * self.__node_capacity + 1)` and
then `len(self) // mean_vals_per_node`, which raises ZeroDivisionError when
the mean is 0 (`__len__` comes from the imported base class
`AbstractLinkedList`, absent from the sources; modelled from the spec as
returning `size`).  Otherwise `math.remainder(__x=len(self),
__y=mean_vals_per_node)` raises TypeError, because `math.remainder` accepts
positional arguments only.  Either way the bulk path raises before any
`UnrolledNode` is created (and the node constructions after it would raise
TypeError themselves, see `UnrolledNode.callWithValsKw`), and the raise inside
`__init__` means no partially initialised instance escapes. -/
def UnrolledLinkedList.init {α : Type} (vals : Option (List α))
    (capacity : Option Int) (node_capacity : Int) (loadfactor : ℚ)
    (lfIsFloat : Bool) : Except PyError (UnrolledLinkedList α) :=
  if ¬ lfIsFloat then .error .typeError
  else if loadfactor ≤ 0 ∨ mkRat 1 2 < loadfactor then .error .valueError
  else
    match vals with
    | none => .ok ⟨capacity, node_capacity, loadfactor, 0, 0, []⟩
    | some vs =>
      if vs.length = 0 then .ok ⟨capacity, node_capacity, loadfactor, 0, 0, []⟩
      else if pyTruncInt (loadfactor * (node_capacity : ℚ) + 1) = 0 then
        .error .zeroDivisionError
      else .error .typeError

/-- `UnrolledLinkedList.push_back(val)` (value overload).  Returns the
resulting state and the exception raised, if any.  The entry check
`isinstance(val, UnrolledNode)` cannot fire on element values.  On an empty
list the edge case evaluates `UnrolledNode(vals=[val], node_capacity=...)`,
which raises before `__head`/`__tail` are assigned.  On a non-empty list
(there is no `else` around the edge case, but the raise makes the branches
exclusive), `arr = self.__tail._UnrolledNode__array` and `len(arr)` is the
length of the numpy array itself, so when it is below `node_capacity` the
assignment `arr[len(arr)] = val` indexes one past the end (IndexError);
otherwise the split branch evaluates
`UnrolledNode(vals=arr[start_index:], node_capacity=...)`, which raises
before any slot of the old tail is cleared and before any link or `__tail`
update.  `_size` is never touched on any path. -/
def UnrolledLinkedList.push_back {α : Type} (s : UnrolledLinkedList α)
    (val : α) : UnrolledLinkedList α × Option PyError :=
  match s.chain with
  | [] => (s, some .typeError)
  | hd :: rest =>
    let tl := rest.getLastD hd
    if (tl.array.length : Int) < s.node_capacity then (s, some .indexError)
    else (s, some .typeError)

/-- The prepend shift loop
`for index in np.arange(len(head), 1, -1): arr[index] = arr[index - 1]`,
iterating the indices `i, i-1, ..., 2` in that order.  Because the range stops
before 1, slot 1 is never overwritten: the original first element is lost and
the second one is duplicated.  (In-bounds behaviour only; the caller below
models the out-of-bounds raise separately.) -/
def pushFrontShiftLoop {α : Type} (arr : List (Option α)) :
    Nat → List (Option α)
  | 0 => arr
  | 1 => arr
  | i + 2 => pushFrontShiftLoop (arr.set (i + 2) (arr.getD (i + 1) none)) (i + 1)

/-- `UnrolledLinkedList.push_front(val)` (value overload).  On an empty list
the edge case evaluates `UnrolledNode(vals=[val], node_capacity=...)`, which
raises before any assignment.  On a non-empty list with
`len(self.__head) < self.__node_capacity` the shift loop runs in place and
then `arr[0] = val` is stored; the first loop write `arr[len(head)]` is out of
bounds (IndexError, before anything is written) exactly when `len(head)`
reaches the array length with `len(head) >= 2`, and `arr[0] = val` is out of
bounds when the array is empty.  When the head is full, the split branch
evaluates `UnrolledNode(vals=[val], node_capacity=...)`, raising before any
element is moved or any link or `__head` update.  `_size` is never touched. -/
def UnrolledLinkedList.push_front {α : Type} (s : UnrolledLinkedList α)
    (val : α) : UnrolledLinkedList α × Option PyError :=
  match s.chain with
  | [] => (s, some .typeError)
  | hd :: rest =>
    if (hd.len : Int) < s.node_capacity then
      if 2 ≤ hd.len ∧ hd.array.length ≤ hd.len then (s, some .indexError)
      else if hd.array.length = 0 then (s, some .indexError)
      else
        ({ s with chain :=
            { hd with
              array := (pushFrontShiftLoop hd.array hd.len).set 0 (some val) }
            :: rest },
          none)
    else (s, some .typeError)

/-- One step budgeted model of the `while curr is not None` scan in
`UnrolledLinkedList.contains(val)`: test the current node, then move on via
the `next` property.  `none` signals that the budget ran out before the loop
finished; in fact the budget is never exhausted, because `next` always raises
(`UnrolledNode.nextProp`). -/
def containsLoop {α : Type} [DecidableEq α] (val : α) :
    Nat → Option (UnrolledNode α) → Option (Except PyError Bool)
  | _, none => some (.ok false)
  | 0, some _ => none
  | fuel + 1, some curr =>
    if curr.containsVal val then some (.ok true)
    else
      match curr.nextProp with
      | .error e => some (.error e)
      | .ok nxt => containsLoop val fuel nxt

/-- `UnrolledLinkedList.contains(val)` (value overload): `False` on an empty
list (`is_empty` edge case), otherwise the while-loop scan starting at
`__head`.  The budget `chain.length + 1` covers every node of the chain; the
fallback value of `getD` is unreachable (see `containsLoop`). -/
def UnrolledLinkedList.containsVal {α : Type} [DecidableEq α]
    (s : UnrolledLinkedList α) (val : α) : Except PyError Bool :=
  (containsLoop val (s.chain.length + 1) s.head).getD (.error .attributeError)

/-- Modelled from the spec: `toSequence()` appears in the specification but is
implemented nowhere in the sources (the class defines no iteration or
flattening method); per the spec it concatenates each block's occupied
left-packed run in chain order. -/
def UnrolledLinkedList.toSequence {α : Type} (s : UnrolledLinkedList α) :
    List α :=
  (s.chain.map fun n => (n.array.takeWhile fun o => o.isSome).filterMap id).flatten

/-- Sum of the per-node stored-value counts over the chain. -/
def UnrolledLinkedList.sumFilled {α : Type} (s : UnrolledLinkedList α) : Nat :=
  (s.chain.map UnrolledNode.len).sum

/-- States reachable through the public interface: a successful construction
followed by any sequence of `push_back`/`push_front` calls.  The accessors
`contains`, `is_empty` and `toSequence` do not change state. -/
inductive Reachable {α : Type} : UnrolledLinkedList α → Prop where
  | init (vals : Option (List α)) (capacity : Option Int) (node_capacity : Int)
      (loadfactor : ℚ) (lfIsFloat : Bool) (s : UnrolledLinkedList α) :
      UnrolledLinkedList.init vals capacity node_capacity loadfactor lfIsFloat
        = Except.ok s →
      Reachable s
  | push_back (s : UnrolledLinkedList α) (v : α) : Reachable s →
      Reachable (s.push_back v).1
  | push_front (s : UnrolledLinkedList α) (v : α) : Reachable s →
      Reachable (s.push_front v).1

/-- The state produced by `UnrolledLinkedList()` with all-default arguments
(`vals=None`, `capacity=None`, `node_capacity=10`, `loadfactor=0.5`). -/
def ullDefault : UnrolledLinkedList Int :=
  ⟨none, 10, mkRat 1 2, 0, 0, []⟩

theorem init_ok_empty {α : Type} {vals : Option (List α)} {cap : Option Int}
    {nc : Int} {lf : ℚ} {flag : Bool} {s : UnrolledLinkedList α}
    (h : UnrolledLinkedList.init vals cap nc lf flag = Except.ok s) :
    s.chain = [] ∧ s.size = 0 ∧ s.node_count = 0 := by
  unfold UnrolledLinkedList.init at h
  split at h
  · exact absurd h (by simp)
  split at h
  · exact absurd h (by simp)
  split at h
  · have hs := Except.ok.inj h
    subst hs
    exact ⟨rfl, rfl, rfl⟩
  · split at h
    · have hs := Except.ok.inj h
      subst hs
      exact ⟨rfl, rfl, rfl⟩
    · split at h
      · exact absurd h (by simp)
      · exact absurd h (by simp)

theorem push_back_of_empty {α : Type} {s : UnrolledLinkedList α}
    (hc : s.chain = []) (v : α) :
    s.push_back v = (s, some PyError.typeError) := by
  unfold UnrolledLinkedList.push_back
  rw [hc]

theorem push_front_of_empty {α : Type} {s : UnrolledLinkedList α}
    (hc : s.chain = []) (v : α) :
    s.push_front v = (s, some PyError.typeError) := by
  unfold UnrolledLinkedList.push_front
  rw [hc]

theorem reachable_empty {α : Type} {s : UnrolledLinkedList α}
    (h : Reachable s) :
    s.chain = [] ∧ s.size = 0 ∧ s.node_count = 0 := by
  induction h with
  | init vals cap nc lf flag s hinit => exact init_ok_empty hinit
  | push_back s v hs ih => rw [push_back_of_empty ih.1 v]; exact ih
  | push_front s v hs ih => rw [push_front_of_empty ih.1 v]; exact ih

/-- C1: the spec claims that after pushBack(v1), ..., pushBack(vn) on a new
empty sequence, toSequence() yields [v1, ..., vn] (symmetrically for
pushFront).  The code violates this at the very first push: `push_back(1)` on
a freshly constructed default `UnrolledLinkedList()` raises TypeError from the
`UnrolledNode(vals=[1], node_capacity=10)` call and leaves the sequence `[]`,
not `[1]` (and `push_front(1)` fails the same way). -/
theorem push_back_on_new_list_raises :
    UnrolledLinkedList.init (α := Int) none none 10 (mkRat 1 2) true
      = Except.ok ullDefault ∧
    ullDefault.push_back 1 = (ullDefault, some PyError.typeError) ∧
    (ullDefault.push_back 1).1.toSequence = [] ∧
    ullDefault.push_front 1 = (ullDefault, some PyError.typeError) ∧
    (ullDefault.push_front 1).1.toSequence = [] :=
  ⟨rfl, rfl, rfl, rfl, rfl⟩

/-- C2: every instance reachable through the public interface is empty — head
and tail are None, node_count is 0, is_empty() is True and contains(v) is
False for every v — and every code path that would create a node raises before
linking it: every `UnrolledNode(vals=..., node_capacity=...)` call raises
TypeError at keyword binding, the inverted capacity type check raises
TypeError for every int capacity, bulk construction raises inside `__init__`
(ZeroDivisionError on a zero mean, else the math.remainder TypeError), and
the first push_back or push_front on an empty list raises, leaving the state
unchanged, so the Empty state is never left. -/
theorem reachable_instances_stay_empty {α : Type} [DecidableEq α]
    (s : UnrolledLinkedList α) (v : α) (vals : List α) (c nc : Int)
    (it : Option (List α)) (vs : List α) (cap : Option Int) (f : ℚ)
    (h : Reachable s) :
    s.head = none ∧ s.tail = none ∧ s.node_count = 0 ∧ s.is_empty = true ∧
    s.containsVal v = Except.ok false ∧
    UnrolledNode.callWithValsKw vals c
      = (Except.error PyError.typeError : Except PyError (UnrolledNode α)) ∧
    UnrolledNode.init true c it
      = (Except.error PyError.typeError : Except PyError (UnrolledNode α)) ∧
    (0 < f → f ≤ mkRat 1 2 → vs ≠ [] →
      UnrolledLinkedList.init (some vs) cap nc f true
          = (Except.error PyError.zeroDivisionError :
              Except PyError (UnrolledLinkedList α)) ∨
        UnrolledLinkedList.init (some vs) cap nc f true
          = (Except.error PyError.typeError :
              Except PyError (UnrolledLinkedList α))) ∧
    s.push_back v = (s, some PyError.typeError) ∧
    s.push_front v = (s, some PyError.typeError) := by
  obtain ⟨hc, hsz, hnc⟩ := reachable_empty h
  refine ⟨?_, ?_, hnc, ?_, ?_, rfl, rfl, ?_,
    push_back_of_empty hc v, push_front_of_empty hc v⟩
  · simp [UnrolledLinkedList.head, hc]
  · simp [UnrolledLinkedList.tail, hc]
  · simp [UnrolledLinkedList.is_empty, UnrolledLinkedList.head, hc]
  · simp [UnrolledLinkedList.containsVal, UnrolledLinkedList.head, hc,
      containsLoop]
  · intro hf0 hf12 hvs
    have hrange : ¬ (f ≤ 0 ∨ mkRat 1 2 < f) := by push_neg; exact ⟨hf0, hf12⟩
    have hlen : ¬ (vs.length = 0) := fun hl => hvs (List.length_eq_zero.mp hl)
    by_cases hm : pyTruncInt (f * (nc : ℚ) + 1) = 0
    · exact Or.inl (by simp [UnrolledLinkedList.init, hrange, hlen, hm])
    · exact Or.inr (by simp [UnrolledLinkedList.init, hrange, hlen, hm])

/-- Witness for C2 at concrete inputs: the default empty instance, value 0,
and a bulk construction with vals = [1], node_capacity = 4, loadfactor 0.5. -/
theorem reachable_instances_stay_empty_witness :
    ullDefault.head = none ∧ ullDefault.tail = none ∧
    ullDefault.node_count = 0 ∧ ullDefault.is_empty = true ∧
    ullDefault.containsVal 0 = Except.ok false ∧
    UnrolledNode.callWithValsKw [3] 10
      = (Except.error PyError.typeError : Except PyError (UnrolledNode Int)) ∧
    UnrolledNode.init true 10 (some [3])
      = (Except.error PyError.typeError : Except PyError (UnrolledNode Int)) ∧
    (UnrolledLinkedList.init (some [1]) none 4 (mkRat 1 2) true
        = (Except.error PyError.zeroDivisionError :
            Except PyError (UnrolledLinkedList Int)) ∨
      UnrolledLinkedList.init (some [1]) none 4 (mkRat 1 2) true
        = (Except.error PyError.typeError :
            Except PyError (UnrolledLinkedList Int))) ∧
    ullDefault.push_back 0 = (ullDefault, some PyError.typeError) ∧
    ullDefault.push_front 0 = (ullDefault, some PyError.typeError) := by
  have h := reachable_instances_stay_empty (α := Int) ullDefault 0 [3] 10 4
    (some [3]) [1] none (mkRat 1 2)
    (Reachable.init none none 10 (mkRat 1 2) true ullDefault rfl)
  exact ⟨h.1, h.2.1, h.2.2.1, h.2.2.2.1, h.2.2.2.2.1, h.2.2.2.2.2.1,
    h.2.2.2.2.2.2.1,
    h.2.2.2.2.2.2.2.1 (by decide) (by decide) (by decide),
    h.2.2.2.2.2.2.2.2.1, h.2.2.2.2.2.2.2.2.2⟩

/-- C3: the spec claims each push increments `size` by exactly 1 and that
size = len(toSequence()) = sum of filled.  At the failing input —
`push_back(1)` on a freshly constructed default list — the push raises and
`size` stays 0 (the source contains no `_size` update in either push path);
the consistency equalities hold only trivially at 0. -/
theorem push_leaves_size_zero :
    ullDefault.size = 0 ∧
    (ullDefault.push_back 1).2 = some PyError.typeError ∧
    (ullDefault.push_back 1).1.size = 0 ∧
    (ullDefault.push_front 1).1.size = 0 ∧
    (ullDefault.push_back 1).1.toSequence.length = 0 ∧
    (ullDefault.push_back 1).1.sumFilled = 0 :=
  ⟨rfl, rfl, rfl, rfl, rfl, rfl⟩

/-- C4: the spec claims pushBack, pushFront and contains never raise on a
well-formed instance.  The freshly constructed default instance (the shape of
every reachable state) refutes it: both pushes raise TypeError; contains does
return False without raising there. -/
theorem push_raises_on_well_formed_empty :
    (ullDefault.push_back 0).2 = some PyError.typeError ∧
    (ullDefault.push_front 0).2 = some PyError.typeError ∧
    ullDefault.containsVal 0 = Except.ok false :=
  ⟨rfl, rfl, rfl⟩

/-- C5: in the spec scenario — blockCapacity 4, loadFactor 0.5, empty initial
contents, push back 1,2,3,4,5 in order — the very first push raises
TypeError, and after attempting all five pushes the list still has no blocks,
with toSequence() = [] and size = 0: not the claimed split into two blocks
[1,2] and [3,4,5] with size 5. -/
theorem scenario_five_push_backs_stay_empty :
    UnrolledLinkedList.init (α := Int) none none 4 (mkRat 1 2) true
      = Except.ok ⟨none, 4, mkRat 1 2, 0, 0, []⟩ ∧
    ((⟨none, 4, mkRat 1 2, 0, 0, []⟩ : UnrolledLinkedList Int).push_back 1).2
      = some PyError.typeError ∧
    ([1, 2, 3, 4, 5].foldl (fun s v => (UnrolledLinkedList.push_back s v).1)
        (⟨none, 4, mkRat 1 2, 0, 0, []⟩ : UnrolledLinkedList Int)).toSequence
      = [] ∧
    ([1, 2, 3, 4, 5].foldl (fun s v => (UnrolledLinkedList.push_back s v).1)
        (⟨none, 4, mkRat 1 2, 0, 0, []⟩ : UnrolledLinkedList Int)).size = 0 ∧
    ([1, 2, 3, 4, 5].foldl (fun s v => (UnrolledLinkedList.push_back s v).1)
        (⟨none, 4, mkRat 1 2, 0, 0, []⟩ : UnrolledLinkedList Int)).chain = [] :=
  ⟨rfl, rfl, rfl, rfl, rfl⟩

/-- C6 counterexample: the claim says construction fails whenever the block
capacity is below 1; but constructing with node_capacity = 0, loadfactor 0.5
and no initial values succeeds without any error. -/
theorem construction_with_zero_capacity_succeeds :
    UnrolledLinkedList.init (α := Int) none none 0 (mkRat 1 2) true
      = Except.ok ⟨none, 0, mkRat 1 2, 0, 0, []⟩ :=
  rfl

/-- C6 amended: construction fails before any node exists whenever the load
factor is outside (0, 0.5] (ValueError; TypeError when it is not a float), and
a failed construction returns no state at all, so no partial structure is left
behind; the block capacity is not validated, and with an empty initial
collection construction succeeds for every capacity value. -/
theorem construction_validates_only_loadfactor
    (vals : Option (List Int)) (cap cap2 : Option Int) (nc nc2 : Int) (f g : ℚ)
    (hf : f ≤ 0 ∨ mkRat 1 2 < f) (hg0 : 0 < g) (hg : g ≤ mkRat 1 2) :
    UnrolledLinkedList.init vals cap nc f true
      = Except.error PyError.valueError ∧
    UnrolledLinkedList.init vals cap nc f false
      = Except.error PyError.typeError ∧
    UnrolledLinkedList.init (α := Int) none cap2 nc2 g true
      = Except.ok ⟨cap2, nc2, g, 0, 0, []⟩ := by
  have hrange : ¬ (g ≤ 0 ∨ mkRat 1 2 < g) := by push_neg; exact ⟨hg0, hg⟩
  refine ⟨?_, ?_, ?_⟩
  · simp [UnrolledLinkedList.init, hf]
  · simp [UnrolledLinkedList.init]
  · simp [UnrolledLinkedList.init, hrange]

/-- Witness for C6 amended at concrete inputs: load factor 1 (out of range,
ValueError), load factor 1 declared non-float (TypeError), and a successful
construction with capacity -3 and load factor 0.5. -/
theorem construction_validates_only_loadfactor_witness :
    UnrolledLinkedList.init (α := Int) none none 0 1 true
      = Except.error PyError.valueError ∧
    UnrolledLinkedList.init (α := Int) none none 0 1 false
      = Except.error PyError.typeError ∧
    UnrolledLinkedList.init (α := Int) none none (-3) (mkRat 1 2) true
      = Except.ok ⟨none, -3, mkRat 1 2, 0, 0, []⟩ :=
  construction_validates_only_loadfactor none none none 0 (-3) 1 (mkRat 1 2)
    (by decide) (by decide) (by decide)

/-- C7: on every instance reachable through the public interface, contains(v)
returns true exactly when v occurs in the sequence produced by toSequence(). -/
theorem contains_iff_mem_toSequence {α : Type} [DecidableEq α]
    (s : UnrolledLinkedList α) (v : α) (h : Reachable s) :
    (s.containsVal v = Except.ok true ↔ v ∈ s.toSequence) := by
  have hc := (reachable_empty h).1
  have h1 : s.containsVal v = Except.ok false := by
    simp [UnrolledLinkedList.containsVal, UnrolledLinkedList.head, hc,
      containsLoop]
  have h2 : s.toSequence = [] := by
    simp [UnrolledLinkedList.toSequence, hc]
  rw [h1, h2]
  simp

/-- Witness for C7 at the default empty instance and value 3. -/
theorem contains_iff_mem_toSequence_witness :
    (ullDefault.containsVal 3 = Except.ok true ↔ 3 ∈ ullDefault.toSequence) :=
  contains_iff_mem_toSequence ullDefault 3
    (Reachable.init none none 10 (mkRat 1 2) true ullDefault rfl)

/-- C8: the spec claims that construction with initial = [1..9],
blockCapacity = 4 and loadFactor = 0.5 yields size 9 and toSequence()
= [1,...,9].  The code instead raises TypeError in the bulk path —
math.remainder called with keyword arguments — before any node is created. -/
theorem bulk_construction_raises_typeerror :
    UnrolledLinkedList.init (α := Int) (some [1, 2, 3, 4, 5, 6, 7, 8, 9]) none 4
      (mkRat 1 2) true = Except.error PyError.typeError := by
  have hm : pyTruncInt (mkRat 1 2 * (4 : ℚ) + 1) = 3 := by
    have h3 : mkRat 1 2 * (4 : ℚ) + 1 = 3 := by norm_num [Rat.mkRat_eq_div]
    rw [pyTruncInt, h3]
    norm_num [Rat.num_ofNat, Rat.den_ofNat, Int.tdiv]
  have hle : ¬ (mkRat 1 2 ≤ (0 : ℚ)) := by decide
  simp [UnrolledLinkedList.init, hle, hm]

/-- C9: on every reachable instance each public operation runs to completion:
the contains scan halts at once (the chain is exhausted from the start) with
result False under every iteration budget, so no block is visited more than
once; toSequence() yields []; and both pushes return, each raising
TypeError. -/
theorem public_operations_terminate {α : Type} [DecidableEq α]
    (s : UnrolledLinkedList α) (v : α) (fuel : Nat) (h : Reachable s) :
    containsLoop v fuel s.head = some (Except.ok false) ∧
    s.containsVal v = Except.ok false ∧
    s.toSequence = [] ∧
    s.push_back v = (s, some PyError.typeError) ∧
    s.push_front v = (s, some PyError.typeError) := by
  obtain ⟨hc, hsz, hnc⟩ := reachable_empty h
  have hh : s.head = none := by simp [UnrolledLinkedList.head, hc]
  refine ⟨?_, ?_, ?_, push_back_of_empty hc v, push_front_of_empty hc v⟩
  · rw [hh]; cases fuel <;> rfl
  · simp [UnrolledLinkedList.containsVal, hh, hc, containsLoop]
  · simp [UnrolledLinkedList.toSequence, hc]

/-- Witness for C9 at the default empty instance, value 0 and budget 7. -/
theorem public_operations_terminate_witness :
    containsLoop 0 7 ullDefault.head = some (Except.ok false) ∧
    ullDefault.containsVal 0 = Except.ok false ∧
    ullDefault.toSequence = [] ∧
    ullDefault.push_back 0 = (ullDefault, some PyError.typeError) ∧
    ullDefault.push_front 0 = (ullDefault, some PyError.typeError) :=
  public_operations_terminate ullDefault 0 7
    (Reachable.init none none 10 (mkRat 1 2) true ullDefault rfl)

/-- C10: whenever push_back or push_front raises, the list is exactly as it was
before the call: on every raising path the failing node construction (or the
out-of-bounds index) is evaluated before any mutation of existing state.
This holds for every state of the model, reachable or not. -/
theorem push_exception_preserves_state {α : Type}
    (s : UnrolledLinkedList α) (v : α) :
    ((s.push_back v).2.isSome = true → (s.push_back v).1 = s) ∧
    ((s.push_front v).2.isSome = true → (s.push_front v).1 = s) := by
  constructor
  · intro _
    unfold UnrolledLinkedList.push_back
    split
    · rfl
    · dsimp only
      split
      · rfl
      · rfl
  · cases hch : s.chain with
    | nil => intro _; simp [UnrolledLinkedList.push_front, hch]
    | cons hd rest =>
      by_cases h1 : (hd.len : Int) < s.node_capacity
      · by_cases h2 : 2 ≤ hd.len ∧ hd.array.length ≤ hd.len
        · intro _; simp [UnrolledLinkedList.push_front, hch, h1, h2]
        · by_cases h3 : hd.array.length = 0
          · intro _; simp [UnrolledLinkedList.push_front, hch, h1, h2, h3]
          · intro hp
            exfalso
            simp [UnrolledLinkedList.push_front, hch, h1, h2, h3] at hp
      · intro _; simp [UnrolledLinkedList.push_front, hch, h1]

/-- Witness for C10 at the default empty instance and value 1, where both
pushes raise. -/
theorem push_exception_preserves_state_witness :
    (ullDefault.push_back 1).1 = ullDefault ∧
    (ullDefault.push_front 1).1 = ullDefault :=
  ⟨(push_exception_preserves_state ullDefault 1).1 rfl,
   (push_exception_preserves_state ullDefault 1).2 rfl⟩

end Flite
